import Mathlib

/-!
Shallow embedding of `src/tusimple/visual_tusimple.py` (class `VisualTusimple`).

The program loads a TuSimple annotation record from a JSON file, loads the
referenced image, draws one filled circle per valid lane sample onto the image
buffer, and writes the buffer to disk.  The embedding models:

* the record data (`RawRecord`: `raw_file`, `lanes`, `h_samples`, each possibly
  missing, since dictionary access can raise `KeyError`);
* the image buffer as the list of circle-draw operations applied to it;
* Python method-call arity (`callMethod`), because `__init__` calls
  `self._load_json(self.json_path)` while `_load_json` is declared with no
  parameter besides `self`;
* a small filesystem (`FS`) with `os.path.exists`, `os.makedirs`,
  `cv2.imwrite`, so that `ensure_file_exists` and `save_image` can be studied.
-/

/-- A BGR color triple, as passed to OpenCV drawing calls. -/
abbrev ColorT := Int × Int × Int

/-- The default palette built in `__init__` when `line_colors is None`:
`[(255, 0, 0), (0, 255, 0), (0, 0, 255)]`, a fresh list literal per call. -/
def defaultLineColors : List ColorT := [(255, 0, 0), (0, 255, 0), (0, 0, 255)]

/-- The image buffer, modelled as the sequence of circle-draw operations
(`cv2.circle(self.image, point, 3, line_color, -1)`) applied to it, in order:
each entry is the color and the center `(x, y)` of one drawn marker. -/
abbrev Image := List (ColorT × (Int × Int))

/-- A parsed JSON record.  Each field is `Option` because the Python code
accesses `self.data['raw_file']`, `self.data['lanes']`, `self.data['h_samples']`
by key, which raises `KeyError` when the key is absent. -/
structure RawRecord where
  raw_file : Option String
  lanes : Option (List (List Int))
  h_samples : Option (List Int)
deriving DecidableEq

/-- Python exceptions that the embedded operations can raise.
`malformedInput` is the error class named by the specification; it appears here
only so that the specification's sentence can be stated and compared with what
the code actually raises (the code never raises it). -/
inductive PyError where
  | typeError
  | keyError
  | malformedInput
  | fileExists
  | notADirectory
deriving DecidableEq

/-- `lane_points = [(x, y) for x, y in zip(lane, h_samples) if x != -2]`
(line 68 of the source): positional pairing of a lane's x-values with the
shared height samples, dropping sentinel entries. -/
def lanePoints (lane : List Int) (h_samples : List Int) : List (Int × Int) :=
  (lane.zip h_samples).filter (fun p => p.1 != -2)

/-- `self.line_colors[i % len(self.line_colors)]` (line 66 of the source):
the color assigned to lane `i`. -/
def laneColor (line_colors : List ColorT) (i : Nat) : ColorT :=
  line_colors.getD (i % line_colors.length) (0, 0, 0)

/-- The loop body of `draw_lanes`, with the running `enumerate` index made
explicit: for each lane, the selected color together with the points that get
a circle drawn at them. -/
def renderLanesAux (colors : List ColorT) (h_samples : List Int) :
    Nat → List (List Int) → List (ColorT × List (Int × Int))
  | _, [] => []
  | i, lane :: rest =>
      (laneColor colors i, lanePoints lane h_samples) ::
        renderLanesAux colors h_samples (i + 1) rest

/-- `for i, lane in enumerate(lanes): ...` — the per-lane rendering of
`draw_lanes`: the list, in lane order, of each lane's color and rendered
points. -/
def renderLanes (lanes : List (List Int)) (h_samples : List Int)
    (colors : List ColorT) : List (ColorT × List (Int × Int)) :=
  renderLanesAux colors h_samples 0 lanes

/-- The flat sequence of circle-draw operations `draw_lanes` performs, in
order: lane by lane, point by point, each with its lane's color. -/
def renderOps (lanes : List (List Int)) (h_samples : List Int)
    (colors : List ColorT) : Image :=
  (renderLanes lanes h_samples colors).foldr
    (fun cl acc => cl.2.map (fun p => (cl.1, p)) ++ acc) []

/-- The state of a constructed `VisualTusimple` instance: `json_path`,
`line_colors`, `data`, `image`. -/
structure VState where
  json_path : String
  line_colors : List ColorT
  data : RawRecord
  image : Image
deriving DecidableEq

/-- Dictionary key access `d[k]`: raises `KeyError` when the key is absent. -/
def getField (o : Option α) : Except PyError α :=
  match o with
  | some a => Except.ok a
  | none => Except.error PyError.keyError

/-- A Python method: its declared parameter list (beyond `self`) and its body,
which runs only when the call supplies exactly as many arguments. -/
structure PyMethod (α : Type) (β : Type) where
  params : List String
  body : List α → β

/-- Calling a Python method: if the number of supplied positional arguments
differs from the number of declared parameters, Python raises `TypeError`
before the body runs. -/
def callMethod (m : PyMethod α β) (args : List α) : Except PyError β :=
  if args.length = m.params.length then Except.ok (m.body args)
  else Except.error PyError.typeError

/-- `def _load_json(self): ...` — declared with NO parameter besides `self`;
its body opens `self.json_path` and parses it, modelled by returning the
already-parsed `content` of that file. -/
def loadJsonMethod (content : RawRecord) : PyMethod String RawRecord :=
  { params := [], body := fun _ => content }

/-- `__init__(self, json_path, line_colors=None)`: stores `json_path`, builds
the palette (a fresh default list when `line_colors is None`), then evaluates
`self._load_json(self.json_path)` — a call with one positional argument to a
method declared with none — and finally `self._load_image()`, which reads
`self.data['raw_file']` and calls `cv2.imread` on it.  `images` maps an image
path to its decoded buffer. -/
def init (content : RawRecord) (images : String → Image) (json_path : String)
    (line_colors : Option (List ColorT)) : Except PyError VState := do
  let lc := line_colors.getD defaultLineColors
  let data ← callMethod (loadJsonMethod content) [json_path]
  let rf ← getField data.raw_file
  Except.ok { json_path := json_path, line_colors := lc, data := data,
              image := images rf }

/-- `draw_lanes(self)`: reads `self.data['lanes']` and `self.data['h_samples']`
(each a `KeyError` if absent), then appends one circle-draw operation to the
image buffer per retained lane point.  Nothing else in the state changes. -/
def drawLanesM (s : VState) : Except PyError VState := do
  let lanes ← getField s.data.lanes
  let hs ← getField s.data.h_samples
  Except.ok { s with image := s.image ++ renderOps lanes hs s.line_colors }

/-- A filesystem path, as its list of components. -/
abbrev FPath := List String

/-- A filesystem node: a directory, or a file holding an encoded image. -/
inductive Node where
  | dir
  | file (content : Image)
deriving DecidableEq

/-- The filesystem: an association of paths to nodes (newest entry wins). -/
structure FS where
  entries : List (FPath × Node)
deriving DecidableEq

/-- Look up the node at a path. -/
def fsLookup (fs : FS) (p : FPath) : Option Node :=
  (fs.entries.find? (fun e => e.1 == p)).map (fun e => e.2)

/-- Bind a path to a node (shadowing any older entry). -/
def fsInsert (fs : FS) (p : FPath) (n : Node) : FS :=
  ⟨(p, n) :: fs.entries⟩

/-- `os.path.exists(path)`. -/
def pathExists (fs : FS) (p : FPath) : Bool :=
  (fsLookup fs p).isSome

/-- The proper ancestors of a path, shortest first. -/
def ancestorsOf (p : FPath) : List FPath :=
  (List.range (p.length - 1)).map (fun k => p.take (k + 1))

/-- Create each listed directory in turn, skipping ones that already exist and
failing if one exists as a non-directory. -/
def mkDirChain (fs : FS) : List FPath → Except PyError FS
  | [] => Except.ok fs
  | q :: qs =>
      match fsLookup fs q with
      | some Node.dir => mkDirChain fs qs
      | some (Node.file _) => Except.error PyError.notADirectory
      | none => mkDirChain (fsInsert fs q Node.dir) qs

/-- `os.makedirs(path, exist_ok=ex_ok)`: create every missing ancestor as a
directory, then the target itself; an existing target directory is an error
unless `ex_ok`, and an existing target file is always an error. -/
def makedirs (fs : FS) (p : FPath) (ex_ok : Bool) : Except PyError FS := do
  let fs1 ← mkDirChain fs (ancestorsOf p)
  match fsLookup fs1 p with
  | some Node.dir =>
      if ex_ok then Except.ok fs1 else Except.error PyError.fileExists
  | some (Node.file _) => Except.error PyError.fileExists
  | none => Except.ok (fsInsert fs1 p Node.dir)

/-- `ensure_file_exists(self, *args, exist_ok=True)` (lines 48-58 of the
source): `for path in args: if not os.path.exists(path):
os.makedirs(path, exist_ok=exist_ok)`. -/
def ensure_file_exists (fs : FS) (args : List FPath) (ex_ok : Bool) :
    Except PyError FS :=
  match args with
  | [] => Except.ok fs
  | p :: ps => do
      let fs1 ← if pathExists fs p then Except.ok fs else makedirs fs p ex_ok
      ensure_file_exists fs1 ps ex_ok

/-- `cv2.imwrite(path, image)`: writes the encoded buffer at `path` and
returns `true` when the parent directory exists (a bare filename writes into
the working directory) and `path` is not itself a directory; otherwise it
writes nothing and returns `false` (OpenCV does not raise here). -/
def imwrite (fs : FS) (p : FPath) (img : Image) : FS × Bool :=
  let parentOk :=
    decide (p.length ≤ 1) ||
      (match fsLookup fs p.dropLast with
       | some Node.dir => true
       | _ => false)
  let targetIsDir :=
    match fsLookup fs p with
    | some Node.dir => true
    | _ => false
  if parentOk && !targetIsDir then (fsInsert fs p (Node.file img), true)
  else (fs, false)

/-- `save_image(self, output_path)` (lines 72-80 of the source):
`self.ensure_file_exists(output_path)` — note: called on the OUTPUT FILE PATH
itself, not on its parent directory — followed by
`cv2.imwrite(output_path, self.image)`. -/
def save_image (fs : FS) (output_path : FPath) (img : Image) :
    Except PyError (FS × Bool) := do
  let fs1 ← ensure_file_exists fs [output_path] true
  Except.ok (imwrite fs1 output_path img)

/-- `visualize(self, output_path)`: `draw_lanes` then `save_image`. -/
def visualize (s : VState) (fs : FS) (output_path : FPath) :
    Except PyError (VState × FS × Bool) := do
  let s1 ← drawLanesM s
  let r ← save_image fs output_path s1.image
  Except.ok (s1, r)

/-- One whole run: construct `VisualTusimple(json_path)` on a record whose
parsed content is `content`, then `visualize(output_path)`. -/
def runProgram (content : RawRecord) (images : String → Image) (fs : FS)
    (json_path : String) (line_colors : Option (List ColorT))
    (output_path : FPath) : Except PyError (VState × FS × Bool) := do
  let s ← init content images json_path line_colors
  visualize s fs output_path

/-- A heap of color lists; a Python list value is an address into it. -/
abbrev Heap := List (List ColorT)

/-- Allocate a fresh list object, returning the heap and the new address. -/
def alloc (h : Heap) (v : List ColorT) : Heap × Nat :=
  (h ++ [v], h.length)

/-- The list stored at an address. -/
def heapGet (h : Heap) (a : Nat) : List ColorT :=
  h.getD a []

/-- In-place mutation of the list at an address. -/
def heapSet (h : Heap) (a : Nat) (v : List ColorT) : Heap :=
  h.set a v

/-- The palette binding performed by `__init__`:
`self.line_colors = line_colors if line_colors is not None else
[(255, 0, 0), (0, 255, 0), (0, 0, 255)]`.  Passing a palette aliases the
caller's list; passing `None` allocates a FRESH list literal (the default is
not a shared mutable default argument). -/
def constructPalette (h : Heap) (line_colors : Option Nat) : Heap × Nat :=
  match line_colors with
  | some a => (h, a)
  | none => alloc h defaultLineColors

/-- Indexing into the `enumerate` loop of `draw_lanes`: the entry at position
`i` of the per-lane rendering (started at index `k`) is lane `i`'s color at
enumeration index `k + i`, with its rendered points. -/
theorem renderLanesAux_get? (c : List ColorT) (hs : List Int) :
    ∀ (lanes : List (List Int)) (k i : Nat),
      (renderLanesAux c hs k lanes).get? i =
        (lanes.get? i).map (fun lane => (laneColor c (k + i), lanePoints lane hs))
  | [], _, _ => by simp [renderLanesAux]
  | lane :: rest, k, 0 => by simp [renderLanesAux]
  | lane :: rest, k, i + 1 => by
      have ih := renderLanesAux_get? c hs rest (k + 1) i
      have hk : k + 1 + i = k + (i + 1) := by omega
      simp only [renderLanesAux, List.get?_cons_succ, ih, hk]

/-- Positional pairing: when the lane and the height samples have equal
length, the retained pairs are exactly as many as the non-sentinel lane
entries. -/
theorem lanePoints_length_eq :
    ∀ (lane hs : List Int), lane.length = hs.length →
      (lanePoints lane hs).length = (lane.filter (fun x => x != -2)).length
  | [], _, _ => by simp [lanePoints]
  | x :: xs, [], h => by simp at h
  | x :: xs, y :: ys, h => by
      have ih := lanePoints_length_eq xs ys (by simpa using h)
      simp only [lanePoints, List.zip_cons_cons, List.filter_cons] at ih ⊢
      by_cases hx : (x != -2) = true
      · simp [hx, ih]
      · simp [hx, ih]

/-- `zip` truncates its first argument to the length of the second one. -/
theorem zip_truncates :
    ∀ (lane hs : List Int), lane.zip hs = (lane.take hs.length).zip hs
  | [], _ => by simp
  | _ :: _, [] => by simp
  | x :: xs, y :: ys => by
      simp only [List.zip_cons_cons, List.length_cons, List.take_succ_cons]
      rw [← zip_truncates xs ys]

/-- Taking `min` of the two lengths from the lane is the same as taking the
height-sample count. -/
theorem take_min_eq (lane : List Int) (hs : List Int) :
    lane.take (min lane.length hs.length) = lane.take hs.length := by
  rcases Nat.le_total lane.length hs.length with h | h
  · rw [Nat.min_eq_left h, List.take_of_length_le (le_refl _),
      List.take_of_length_le h]
  · rw [Nat.min_eq_right h]

/-- C1: for a record with `lanes = [[10, -2, 30], [5, 15, -2]]` and
`h_samples = [100, 200, 300]`, `draw_lanes` renders for lane 0 exactly the
points `(10, 100)` and `(30, 300)` in `palette[0]`'s color, and for lane 1
exactly the points `(5, 100)` and `(15, 200)` in `palette[1]`'s color. -/
theorem draw_lanes_scenario (palette : List ColorT) (h : 2 ≤ palette.length) :
    renderLanes [[10, -2, 30], [5, 15, -2]] [100, 200, 300] palette =
      [(palette.getD 0 (0, 0, 0), [(10, 100), (30, 300)]),
       (palette.getD 1 (0, 0, 0), [(5, 100), (15, 200)])] := by
  have h0 : (0 : Nat) % palette.length = 0 := Nat.zero_mod _
  have h1 : (1 : Nat) % palette.length = 1 := Nat.mod_eq_of_lt (by omega)
  have e0 : lanePoints [10, -2, 30] [100, 200, 300] = [(10, 100), (30, 300)] := by
    decide
  have e1 : lanePoints [5, 15, -2] [100, 200, 300] = [(5, 100), (15, 200)] := by
    decide
  simp [renderLanes, renderLanesAux, laneColor, h0, h1, e0, e1]

/-- Witness for C1: the scenario evaluated at the default palette. -/
theorem draw_lanes_scenario_witness :
    renderLanes [[10, -2, 30], [5, 15, -2]] [100, 200, 300] defaultLineColors =
      [(defaultLineColors.getD 0 (0, 0, 0), [(10, 100), (30, 300)]),
       (defaultLineColors.getD 1 (0, 0, 0), [(5, 100), (15, 200)])] :=
  draw_lanes_scenario defaultLineColors (by decide)

/-- C2: for a lane whose length equals that of `h_samples`, the rendered
point list for that lane has as many entries as the lane has non-`-2`
entries (zero for an all-sentinel lane), and never more than the number of
height samples. -/
theorem draw_lanes_pairing_invariant (lane hs : List Int)
    (h : lane.length = hs.length) :
    (lanePoints lane hs).length = (lane.filter (fun x => x != -2)).length ∧
    (lanePoints lane hs).length ≤ hs.length := by
  refine ⟨lanePoints_length_eq lane hs h, ?_⟩
  calc (lanePoints lane hs).length
      ≤ (lane.zip hs).length := List.length_filter_le _ _
    _ ≤ hs.length := by rw [List.length_zip]; omega

/-- Witness for C2: an all-sentinel lane of matching length renders zero
points. -/
theorem draw_lanes_pairing_invariant_witness :
    (lanePoints [-2, -2, -2] [100, 200, 300]).length =
      (([-2, -2, -2] : List Int).filter (fun x => x != -2)).length ∧
    (lanePoints [-2, -2, -2] [100, 200, 300]).length ≤
      ([100, 200, 300] : List Int).length :=
  draw_lanes_pairing_invariant [-2, -2, -2] [100, 200, 300] (by decide)

/-- C3: with a nonempty palette of length `P`, lane `i` is drawn with color
`palette[i mod P]`, and when lane `i + P` also exists it receives the same
color as lane `i`. -/
theorem draw_lanes_color_cycling (palette : List ColorT)
    (lanes : List (List Int)) (hs : List Int) (i : Nat)
    (hP : 0 < palette.length) (hL : i + palette.length < lanes.length) :
    ((renderLanes lanes hs palette).get? i).map Prod.fst =
      some (palette.getD (i % palette.length) (0, 0, 0)) ∧
    ((renderLanes lanes hs palette).get? (i + palette.length)).map Prod.fst =
      ((renderLanes lanes hs palette).get? i).map Prod.fst := by
  have hi : i < lanes.length := by omega
  have hgi : lanes.get? i = some (lanes.get ⟨i, hi⟩) := List.get?_eq_get hi
  have hgP : lanes.get? (i + palette.length) =
      some (lanes.get ⟨i + palette.length, hL⟩) := List.get?_eq_get hL
  have h1 := renderLanesAux_get? palette hs lanes 0 i
  have h2 := renderLanesAux_get? palette hs lanes 0 (i + palette.length)
  constructor
  · rw [renderLanes, h1, hgi]
    simp [laneColor, Nat.zero_add]
  · rw [renderLanes, h1, h2, hgi, hgP]
    simp [laneColor, Nat.zero_add, Nat.add_mod_right]

/-- A two-color palette used to instantiate the color-cycling theorem. -/
def cyclePalette : List ColorT := [(7, 7, 7), (9, 9, 9)]

/-- Witness for C3: three lanes over a two-color palette; lane 0 and lane 2
get the same color. -/
theorem draw_lanes_color_cycling_witness :
    ((renderLanes [[1], [2], [3]] [100] cyclePalette).get? 0).map Prod.fst =
      some (cyclePalette.getD (0 % cyclePalette.length) (0, 0, 0)) ∧
    ((renderLanes [[1], [2], [3]] [100] cyclePalette).get?
        (0 + cyclePalette.length)).map Prod.fst =
      ((renderLanes [[1], [2], [3]] [100] cyclePalette).get? 0).map Prod.fst :=
  draw_lanes_color_cycling cyclePalette [[1], [2], [3]] [100] 0 (by decide)
    (by decide)

/-- A record that parses as valid structured text but has no `lanes` field. -/
def recNoLanes : RawRecord :=
  { raw_file := some "clips/0313/frame.jpg", lanes := none,
    h_samples := some [100, 200] }

/-- C4 counterexample: on a concrete record lacking `lanes`, the whole run
fails with `TypeError` (raised by `self._load_json(self.json_path)` in
`__init__`), not with `MalformedInputError`; no `MalformedInputError` is ever
raised by the code. -/
theorem missing_lanes_not_malformedInput :
    runProgram recNoLanes (fun _ => []) ⟨[]⟩ "ann.json" none ["out", "vis.png"] =
      Except.error PyError.typeError ∧
    runProgram recNoLanes (fun _ => []) ⟨[]⟩ "ann.json" none ["out", "vis.png"] ≠
      Except.error PyError.malformedInput := by
  refine ⟨rfl, fun hc => ?_⟩
  exact PyError.noConfusion (Except.error.inj hc)

/-- C4 (amended): a record lacking `lanes` makes the run raise `TypeError` at
construction time — before any image I/O, as the result does not depend on the
image store `images` at all. -/
theorem missing_lanes_raises_typeError (content : RawRecord)
    (images : String → Image) (fs : FS) (jp : String)
    (lc : Option (List ColorT)) (op : FPath) (h : content.lanes = none) :
    runProgram content images fs jp lc op = Except.error PyError.typeError :=
  rfl

/-- Witness for the amended C4. -/
theorem missing_lanes_raises_typeError_witness :
    runProgram recNoLanes (fun _ => []) ⟨[]⟩ "ann.json" none ["out", "vis.png"] =
      Except.error PyError.typeError :=
  missing_lanes_raises_typeError recNoLanes (fun _ => []) ⟨[]⟩ "ann.json" none
    ["out", "vis.png"] rfl

/-- C9: constructing `VisualTusimple` raises `TypeError` for every
`json_path` and every palette argument, because `__init__` evaluates
`self._load_json(self.json_path)` while `_load_json` is declared to take no
argument besides `self`.  The result does not depend on the record content or
on the image store, so no record field is read and no image is loaded. -/
theorem init_always_raises_typeError (content : RawRecord)
    (images : String → Image) (jp : String) (lc : Option (List ColorT)) :
    init content images jp lc = Except.error PyError.typeError :=
  rfl

/-- C5: on a fresh filesystem, `save_image('out/result.png')` turns the
output path ITSELF into a directory (because `ensure_file_exists` is called on
the output file path, not on its parent) and the subsequent `cv2.imwrite`
fails, returning `false`: no image file is written at the output path. -/
theorem save_image_makes_directory_at_output_path :
    (save_image ⟨[]⟩ ["out", "result.png"] [((255, 0, 0), (10, 100))]).map
        (fun r => (fsLookup r.1 ["out", "result.png"], r.2)) =
      Except.ok (some Node.dir, false) := by
  rfl

/-- C10: when a record's `lanes` and `h_samples` are present, `draw_lanes`
raises no error even if a lane's length differs from the number of height
samples: the `zip` pairing silently truncates to the shorter sequence, so
only the first `min(len(lane), len(h_samples))` lane entries can produce
rendered points. -/
theorem draw_lanes_truncates (s : VState) (lanes : List (List Int))
    (hs : List Int) (lane : List Int) (h1 : s.data.lanes = some lanes)
    (h2 : s.data.h_samples = some hs) :
    drawLanesM s =
      Except.ok { s with image := s.image ++ renderOps lanes hs s.line_colors } ∧
    lanePoints lane hs =
      lanePoints (lane.take (min lane.length hs.length)) hs := by
  constructor
  · unfold drawLanesM
    rw [h1, h2]
    rfl
  · unfold lanePoints
    rw [take_min_eq, ← zip_truncates]

/-- A concrete instance state whose lane is longer than its height-sample
list. -/
def sTrunc : VState :=
  { json_path := "ann.json", line_colors := defaultLineColors,
    data := { raw_file := some "clips/0313/frame.jpg",
              lanes := some [[1, 2, 3]], h_samples := some [100] },
    image := [] }

/-- Witness for C10: a three-entry lane against a single height sample. -/
theorem draw_lanes_truncates_witness :
    drawLanesM sTrunc =
      Except.ok { sTrunc with
        image := sTrunc.image ++ renderOps [[1, 2, 3]] [100] sTrunc.line_colors } ∧
    lanePoints [1, 2, 3] [100] =
      lanePoints (([1, 2, 3] : List Int).take
        (min ([1, 2, 3] : List Int).length ([100] : List Int).length)) [100] :=
  draw_lanes_truncates sTrunc [[1, 2, 3]] [100] [1, 2, 3] rfl rfl

/-- A successful `os.makedirs` leaves its target path existing. -/
theorem makedirs_creates (fs fs2 : FS) (p : FPath) (b : Bool)
    (h : makedirs fs p b = Except.ok fs2) : pathExists fs2 p = true := by
  unfold makedirs at h
  cases hm : mkDirChain fs (ancestorsOf p) with
  | error e => rw [hm] at h; exact absurd h (by simp [Bind.bind, Except.bind])
  | ok fs1 =>
    rw [hm] at h
    simp only [Bind.bind, Except.bind] at h
    cases hl : fsLookup fs1 p with
    | none =>
      rw [hl] at h
      injection h with h'
      subst h'
      simp [pathExists, fsLookup, fsInsert, List.find?_cons_of_pos]
    | some n =>
      cases n with
      | dir =>
        rw [hl] at h
        cases b with
        | true =>
          simp only [if_true] at h
          injection h with h'
          subst h'
          simp [pathExists, hl]
        | false => simp at h
      | file c => rw [hl] at h; exact absurd h (by simp)

/-- C6: if the directory-ensure step succeeds on a path, running it again on
the same path raises no error and returns the filesystem unchanged. -/
theorem ensure_file_exists_idempotent (fs fs1 : FS) (p : FPath)
    (h : ensure_file_exists fs [p] true = Except.ok fs1) :
    ensure_file_exists fs1 [p] true = Except.ok fs1 := by
  simp only [ensure_file_exists] at h ⊢
  by_cases he : pathExists fs p = true
  · rw [if_pos he] at h
    simp only [Bind.bind, Except.bind] at h
    injection h with h'
    subst h'
    rw [if_pos he]
    rfl
  · rw [if_neg he] at h
    simp only [Bind.bind, Except.bind] at h
    cases hm : makedirs fs p true with
    | error e => rw [hm] at h; exact absurd h (by simp)
    | ok fsm =>
      rw [hm] at h
      injection h with h'
      subst h'
      rw [if_pos (makedirs_creates fs fsm p true hm)]
      rfl

/-- The filesystem produced by one `ensure_file_exists` call on `a/b`. -/
def fsAB : FS := ⟨[(["a", "b"], Node.dir), (["a"], Node.dir)]⟩

/-- Witness for C6: the second call on `a/b` is a no-op. -/
theorem ensure_file_exists_idempotent_witness :
    ensure_file_exists fsAB [["a", "b"]] true = Except.ok fsAB :=
  ensure_file_exists_idempotent ⟨[]⟩ fsAB ["a", "b"] (by rfl)

/-- Mutating the list object at one heap address leaves the list object at
any other address unchanged. -/
theorem heapGet_heapSet_ne (h : Heap) (a b : Nat) (v : List ColorT)
    (hne : a ≠ b) : heapGet (heapSet h a v) b = heapGet h b := by
  simp [heapGet, heapSet, List.getD_eq_getElem?_getD, List.getElem?_set_ne hne]

/-- C7: constructing twice with `line_colors=None` allocates two DISTINCT
fresh list objects, both equal to the default palette
`[(255, 0, 0), (0, 255, 0), (0, 0, 255)]` (one maximal channel per entry),
and mutating one instance's palette never changes the other's. -/
theorem default_palette_fresh_per_instance (h0 : Heap) (v : List ColorT) :
    (constructPalette h0 none).2 ≠
      (constructPalette (constructPalette h0 none).1 none).2 ∧
    heapGet (constructPalette (constructPalette h0 none).1 none).1
        (constructPalette h0 none).2 = defaultLineColors ∧
    heapGet (constructPalette (constructPalette h0 none).1 none).1
        (constructPalette (constructPalette h0 none).1 none).2 =
      defaultLineColors ∧
    defaultLineColors = [(255, 0, 0), (0, 255, 0), (0, 0, 255)] ∧
    heapGet (heapSet (constructPalette (constructPalette h0 none).1 none).1
          (constructPalette h0 none).2 v)
        (constructPalette (constructPalette h0 none).1 none).2 =
      heapGet (constructPalette (constructPalette h0 none).1 none).1
        (constructPalette (constructPalette h0 none).1 none).2 := by
  simp only [constructPalette, alloc]
  refine ⟨by simp, ?_, ?_, rfl, ?_⟩
  · rw [heapGet, List.getD_append _ _ _ _ (by simp),
      List.getD_append_right _ _ _ _ (le_refl _)]
    simp
  · rw [heapGet, List.getD_append_right _ _ _ _ (le_refl _)]
    simp
  · exact heapGet_heapSet_ne _ _ _ _ (by simp)

/-- A concrete instance state for the frame-effect witness. -/
def sFrame : VState :=
  { json_path := "ann.json", line_colors := defaultLineColors,
    data := { raw_file := some "clips/0313/frame.jpg",
              lanes := some [[10, -2, 30]], h_samples := some [100, 200, 300] },
    image := [] }

/-- The state `draw_lanes` produces from `sFrame`. -/
def sFrameRun : VState :=
  { sFrame with
    image := sFrame.image ++
      renderOps [[10, -2, 30]] [100, 200, 300] sFrame.line_colors }

/-- C8: whenever `draw_lanes` completes, only the image buffer has changed:
the record data, the palette and the stored JSON path are exactly as at load
time. -/
theorem draw_lanes_mutates_only_image (s s2 : VState)
    (h : drawLanesM s = Except.ok s2) :
    s2.data = s.data ∧ s2.line_colors = s.line_colors ∧
    s2.json_path = s.json_path := by
  unfold drawLanesM at h
  cases hl : s.data.lanes with
  | none =>
    rw [hl] at h
    exact absurd h (by simp [getField, Bind.bind, Except.bind])
  | some lanes =>
    rw [hl] at h
    cases hh : s.data.h_samples with
    | none =>
      rw [hh] at h
      exact absurd h (by simp [getField, Bind.bind, Except.bind])
    | some hs =>
      rw [hh] at h
      simp only [getField, Bind.bind, Except.bind] at h
      injection h with h'
      subst h'
      exact ⟨rfl, rfl, rfl⟩

/-- Witness for C8: the concrete run on `sFrame`. -/
theorem draw_lanes_mutates_only_image_witness :
    sFrameRun.data = sFrame.data ∧
    sFrameRun.line_colors = sFrame.line_colors ∧
    sFrameRun.json_path = sFrame.json_path :=
  draw_lanes_mutates_only_image sFrame sFrameRun (by rfl)
